import Mathlib

/-!
Verification of the jeevay geometric mapping engine.

This file gives a shallow embedding of the engine's data model and
operations (coordinate projection, viewport grid, street-network
rasterization, map cache, renderer summaries) and proves properties
stated about them.  Python floats are modelled by real numbers (where
trigonometric functions or square roots occur) or by rationals (where
only field operations occur); Python `int()` truncation toward zero is
modelled explicitly.
-/

namespace Jeevay

/-- Python `int()` applied to a real value: truncation toward zero. -/
noncomputable def pyInt (x : ℝ) : ℤ :=
  if 0 ≤ x then ⌊x⌋ else ⌈x⌉

/-- Python `int()` applied to a rational value: truncation toward zero. -/
def pyTrunc (x : ℚ) : ℤ :=
  if 0 ≤ x then ⌊x⌋ else ⌈x⌉

/-! ## Data model (api/models.py) -/

/-- A street: name, polyline of (lat, lon) vertices, and a category tag. -/
structure Street where
  name : String
  coordinates : List (ℝ × ℝ)
  street_type : String := ""

/-- An intersection point with the (future-reserved) connecting street names. -/
structure Intersection where
  lat : ℝ
  lon : ℝ
  connecting_streets : List String := []

/-- A pedestrian path: name, polyline of (lat, lon) vertices, category tag. -/
structure PedestrianPath where
  name : String
  coordinates : List (ℝ × ℝ)
  path_type : String := ""

/-- A building: point position, display name, optional address. -/
structure Building where
  name : String
  lat : ℝ
  lon : ℝ
  address : Option String := none

/-! ## GridCell (mapping/street_network.py lines 8-48) -/

/-- A single cell of the ASCII grid, with feature flags and name lists. -/
structure GridCell where
  has_street : Bool := false
  street_names : List String := []
  has_pedestrian_path : Bool := false
  pedestrian_path_names : List String := []
  has_building : Bool := false
  building_info : List (String × String) := []
  is_intersection : Bool := false
  character : Char := ' '
deriving DecidableEq

/-- Display character for a cell, chosen by the priority chain of
`GridCell.get_priority_character`. -/
def get_priority_character (c : GridCell) : Char :=
  if c.is_intersection then '+'
  else if c.has_street then '.'
  else if c.has_pedestrian_path then '='
  else if c.has_building then '#'
  else ' '

/-! ## Viewport (mapping/viewport.py) -/

/-- Viewport configuration: grid dimensions in cells, meters per cell,
and fetch-radius margin.  Defaults are 40 x 40 cells at 25 m with
margin 1.2. -/
structure ViewportConfig where
  width : ℕ := 40
  height : ℕ := 40
  cell_size_meters : ℚ := 25
  margin_factor : ℚ := 6 / 5

/-- Required fetch radius (ViewportCalculator.calculate_required_radius):
`int(half_diagonal * margin_factor) + 1`. -/
noncomputable def calculate_required_radius (cfg : ViewportConfig) : ℤ :=
  pyInt (Real.sqrt ((((cfg.width : ℝ) * (cfg.cell_size_meters : ℝ)) / 2) ^ 2 +
      (((cfg.height : ℝ) * (cfg.cell_size_meters : ℝ)) / 2) ^ 2) *
    (cfg.margin_factor : ℝ)) + 1

/-- Extended grid width: `int(visible_width * 2.0)`. -/
def extended_width (cfg : ViewportConfig) : ℕ := 2 * cfg.width

/-- Extended grid height: `int(visible_height * 2.0)`. -/
def extended_height (cfg : ViewportConfig) : ℕ := 2 * cfg.height

/-- Offset of the visible viewport inside the extended grid (x axis):
`(extended_width - visible_width) // 2`. -/
def viewport_offset_x (cfg : ViewportConfig) : ℕ :=
  (extended_width cfg - cfg.width) / 2

/-- Offset of the visible viewport inside the extended grid (y axis). -/
def viewport_offset_y (cfg : ViewportConfig) : ℕ :=
  (extended_height cfg - cfg.height) / 2

/-- Conversion from meter coordinates to extended grid coordinates
(ViewportGrid.meters_to_extended_grid): Python `int()` of
`x / cell_size + extended_width / 2`, with the Y axis flipped. -/
noncomputable def meters_to_extended_grid (cfg : ViewportConfig) (x y : ℝ) : ℤ × ℤ :=
  (pyInt (x / (cfg.cell_size_meters : ℝ) + (extended_width cfg : ℝ) / 2),
   pyInt (-y / (cfg.cell_size_meters : ℝ) + (extended_height cfg : ℝ) / 2))

/-- Validity of an extended-grid position
(ViewportGrid.is_valid_extended_position). -/
def is_valid_extended_position (cfg : ViewportConfig) (gx gy : ℤ) : Prop :=
  0 ≤ gx ∧ gx < (extended_width cfg : ℤ) ∧ 0 ≤ gy ∧ gy < (extended_height cfg : ℤ)

instance (cfg : ViewportConfig) (gx gy : ℤ) :
    Decidable (is_valid_extended_position cfg gx gy) := by
  unfold is_valid_extended_position
  exact inferInstance

/-! ## Local projection (mapping/coordinate_system.py lines 4-24) -/

/-- Local flat-Earth projection centered on a (lat, lon) point. -/
structure LocalProjection where
  center_lat : ℝ
  center_lon : ℝ

/-- Meters per degree of latitude (constant). -/
def lat_to_meters : ℝ := 111320

/-- Meters per degree of longitude at the projection center:
`111320 * cos(radians(center_lat))`. -/
noncomputable def lon_to_meters (p : LocalProjection) : ℝ :=
  111320 * Real.cos (p.center_lat * Real.pi / 180)

/-- Project (lat, lon) to local Cartesian meters (east, north). -/
noncomputable def project_to_meters (p : LocalProjection) (lat lon : ℝ) : ℝ × ℝ :=
  ((lon - p.center_lon) * lon_to_meters p, (lat - p.center_lat) * lat_to_meters)

/-- Convert local meters back to (lat, lon). -/
noncomputable def meters_to_latlon (p : LocalProjection) (x y : ℝ) : ℝ × ℝ :=
  (p.center_lat + y / lat_to_meters, p.center_lon + x / lon_to_meters p)

/-! ## Line rasterization (street_network.py `_line_points`) -/

/-- Points along a segment between two grid coordinates, by uniform
parametric stepping with Python `int()` truncation at each step.
Degenerate segments yield exactly one point. -/
def line_points (x1 y1 x2 y2 : ℤ) : List (ℤ × ℤ) :=
  let dx := (x2 - x1).natAbs
  let dy := (y2 - y1).natAbs
  if dx = 0 ∧ dy = 0 then [(x1, y1)]
  else
    let steps := max dx dy
    if steps = 0 then [(x1, y1)]
    else
      let x_step : ℚ := ((x2 - x1 : ℤ) : ℚ) / (steps : ℚ)
      let y_step : ℚ := ((y2 - y1 : ℤ) : ℚ) / (steps : ℚ)
      (List.range (steps + 1)).map fun i =>
        (pyTrunc ((x1 : ℚ) + (i : ℚ) * x_step), pyTrunc ((y1 : ℚ) + (i : ℚ) * y_step))

/-! ## Extended grid and rasterization passes (street_network.py) -/

/-- The extended grid is a dense mapping from integer coordinate pairs to
cells; absent keys are `none` (a Python dict). -/
def Grid : Type := ℤ × ℤ → Option GridCell

/-- Freshly initialised extended grid: every in-range coordinate maps to an
empty `GridCell` (build_grid's initialisation loop). -/
def initGrid (cfg : ViewportConfig) : Grid := fun p =>
  if is_valid_extended_position cfg p.1 p.2 then some {} else none

/-- In-place mutation of the cell stored at one key of the grid dict. -/
def updateCell (g : Grid) (q : ℤ × ℤ) (f : GridCell → GridCell) : Grid :=
  fun p => if p = q then (g q).map f else g p

/-- Guarded cell mutation: the source always checks
`is_valid_extended_position` before touching `extended_grid[(gx, gy)]`. -/
def setIfValid (cfg : ViewportConfig) (g : Grid) (gx gy : ℤ)
    (f : GridCell → GridCell) : Grid :=
  if is_valid_extended_position cfg gx gy then updateCell g (gx, gy) f else g

/-- Effect of a street rasterization visit on one cell: set the flag and
append the street name if not already present. -/
def addStreetToCell (name : String) (c : GridCell) : GridCell :=
  { c with has_street := true,
           street_names :=
             if name ∈ c.street_names then c.street_names
             else c.street_names ++ [name] }

/-- Effect of a pedestrian-path rasterization visit on one cell. -/
def addPathToCell (name : String) (c : GridCell) : GridCell :=
  { c with has_pedestrian_path := true,
           pedestrian_path_names :=
             if name ∈ c.pedestrian_path_names then c.pedestrian_path_names
             else c.pedestrian_path_names ++ [name] }

/-- Effect of a building on one cell: set the flag and append the
`(name, address or "")` pair if not already present. -/
def addBuildingToCell (b : Building) (c : GridCell) : GridCell :=
  let building_tuple := (b.name, b.address.getD "")
  { c with has_building := true,
           building_info :=
             if building_tuple ∈ c.building_info then c.building_info
             else c.building_info ++ [building_tuple] }

/-- Rasterize one street (one iteration of `_rasterize_streets`): project
every vertex, draw a line between every consecutive vertex pair, and flag
every visited valid cell. -/
noncomputable def rasterizeStreet (cfg : ViewportConfig) (proj : LocalProjection)
    (g : Grid) (street : Street) : Grid :=
  let coords := street.coordinates.map fun q => project_to_meters proj q.1 q.2
  let segments := coords.zip coords.tail
  segments.foldl
    (fun g seg =>
      let g1 := meters_to_extended_grid cfg seg.1.1 seg.1.2
      let g2 := meters_to_extended_grid cfg seg.2.1 seg.2.2
      (line_points g1.1 g1.2 g2.1 g2.2).foldl
        (fun g pt => setIfValid cfg g pt.1 pt.2 (addStreetToCell street.name)) g)
    g

/-- Rasterize one pedestrian path (one iteration of
`_rasterize_pedestrian_paths`). -/
noncomputable def rasterizePath (cfg : ViewportConfig) (proj : LocalProjection)
    (g : Grid) (path : PedestrianPath) : Grid :=
  let coords := path.coordinates.map fun q => project_to_meters proj q.1 q.2
  let segments := coords.zip coords.tail
  segments.foldl
    (fun g seg =>
      let g1 := meters_to_extended_grid cfg seg.1.1 seg.1.2
      let g2 := meters_to_extended_grid cfg seg.2.1 seg.2.2
      (line_points g1.1 g1.2 g2.1 g2.2).foldl
        (fun g pt => setIfValid cfg g pt.1 pt.2 (addPathToCell path.name)) g)
    g

/-- Rasterize one building (one iteration of `_rasterize_buildings`). -/
noncomputable def rasterizeBuilding (cfg : ViewportConfig) (proj : LocalProjection)
    (g : Grid) (b : Building) : Grid :=
  let m := project_to_meters proj b.lat b.lon
  let gp := meters_to_extended_grid cfg m.1 m.2
  setIfValid cfg g gp.1 gp.2 (addBuildingToCell b)

/-- Mark one intersection (one iteration of `_mark_intersections`). -/
noncomputable def markIntersection (cfg : ViewportConfig) (proj : LocalProjection)
    (g : Grid) (i : Intersection) : Grid :=
  let m := project_to_meters proj i.lat i.lon
  let gp := meters_to_extended_grid cfg m.1 m.2
  setIfValid cfg g gp.1 gp.2 (fun c => { c with is_intersection := true })

/-! ## StreetNetwork state (street_network.py lines 51-285) -/

/-- The street-network state: feature lists, viewport configuration,
extended grid, and the geographic center. -/
structure StreetNetwork where
  streets : List Street := []
  intersections : List Intersection := []
  pedestrian_paths : List PedestrianPath := []
  buildings : List Building := []
  viewport_config : ViewportConfig := {}
  extended_grid : Grid := fun _ => none
  center_lat : ℝ := 0
  center_lon : ℝ := 0

/-- Visible grid width; the source sets `grid_width` from the viewport
configuration at construction and never reassigns it. -/
def StreetNetwork.grid_width (n : StreetNetwork) : ℕ := n.viewport_config.width

/-- Visible grid height, as for `StreetNetwork.grid_width`. -/
def StreetNetwork.grid_height (n : StreetNetwork) : ℕ := n.viewport_config.height

/-- Build the internal grid (StreetNetwork.build_grid): recreate the
projection, initialise a dense extended grid, then rasterize streets,
pedestrian paths, buildings and intersections in that order. -/
noncomputable def build_grid (n : StreetNetwork) (center_lat center_lon : ℝ) :
    StreetNetwork :=
  let proj : LocalProjection := ⟨center_lat, center_lon⟩
  let cfg := n.viewport_config
  let g0 := initGrid cfg
  let g1 := n.streets.foldl (rasterizeStreet cfg proj) g0
  let g2 := n.pedestrian_paths.foldl (rasterizePath cfg proj) g1
  let g3 := n.buildings.foldl (rasterizeBuilding cfg proj) g2
  let g4 := n.intersections.foldl (markIntersection cfg proj) g3
  { n with center_lat := center_lat, center_lon := center_lon,
           extended_grid := g4 }

/-- Validity of a visible viewport position
(StreetNetwork._is_valid_grid_pos). -/
def is_valid_grid_pos (n : StreetNetwork) (x y : ℤ) : Prop :=
  0 ≤ x ∧ x < (n.grid_width : ℤ) ∧ 0 ≤ y ∧ y < (n.grid_height : ℤ)

instance (n : StreetNetwork) (x y : ℤ) : Decidable (is_valid_grid_pos n x y) := by
  unfold is_valid_grid_pos
  exact inferInstance

/-- Look up a visible-viewport cell (StreetNetwork.get_cell_info):
validate the viewport position, translate by the viewport offsets, and
read the extended grid. -/
def get_cell_info (n : StreetNetwork) (grid_x grid_y : ℤ) : Option GridCell :=
  if is_valid_grid_pos n grid_x grid_y then
    let ext_x := grid_x + (viewport_offset_x n.viewport_config : ℤ)
    let ext_y := grid_y + (viewport_offset_y n.viewport_config : ℤ)
    if is_valid_extended_position n.viewport_config ext_x ext_y then
      n.extended_grid (ext_x, ext_y)
    else none
  else none

/-! ## Cell detail strings (street_network.py `get_cell_details`) -/

/-- Python `sep.join(parts)`. -/
def joinSep (sep : String) : List String → String
  | [] => ""
  | [s] => s
  | s :: rest => s ++ sep ++ joinSep sep rest

/-- Intersection detail entry of `get_cell_details`. -/
def intersectionPart (cell : GridCell) : List String :=
  if cell.is_intersection then ["Intersection"] else []

/-- Street detail entry of `get_cell_details`: the single street name, or
the joined list of names. -/
def streetPart (cell : GridCell) : List String :=
  if cell.street_names.isEmpty then []
  else if cell.street_names.length = 1 then
    ["Street: " ++ cell.street_names.headD ""]
  else ["Streets: " ++ joinSep ", " cell.street_names]

/-- Pedestrian-path detail entry of `get_cell_details`: the generic
"Unnamed Path" sentinel is filtered out, falling back to a bare
"Pedestrian path" when every path is unnamed. -/
def pathPart (cell : GridCell) : List String :=
  if cell.pedestrian_path_names.isEmpty then []
  else if (cell.pedestrian_path_names.filter
      (fun nm => nm ≠ "Unnamed Path")).isEmpty then ["Pedestrian path"]
  else if (cell.pedestrian_path_names.filter
      (fun nm => nm ≠ "Unnamed Path")).length = 1 then
    ["Pedestrian path: " ++
      (cell.pedestrian_path_names.filter (fun nm => nm ≠ "Unnamed Path")).headD ""]
  else
    ["Pedestrian paths: " ++
      joinSep ", " (cell.pedestrian_path_names.filter (fun nm => nm ≠ "Unnamed Path"))]

/-- Building detail entries of `get_cell_details`: one per accumulated
(name, address) pair, preferring address over name over a bare
"Building". -/
def buildingParts (cell : GridCell) : List String :=
  cell.building_info.map (fun bi =>
    if bi.2 ≠ "" then "Building: " ++ bi.2
    else if bi.1 ≠ "" ∧ bi.1 ≠ "Unnamed Building" then "Building: " ++ bi.1
    else "Building")

/-- The ordered detail parts accumulated by `get_cell_details` for an
in-range cell: intersection marker, street name(s), pedestrian path
name(s) with the unnamed sentinel filtered, then one entry per building. -/
def detailsParts (cell : GridCell) : List String :=
  intersectionPart cell ++ streetPart cell ++ pathPart cell ++ buildingParts cell

/-- Accessible description of an in-range cell: the "Empty area" sentinel
when no street, path or building flag is set, the joined detail parts
otherwise, or the "Location" fallback. -/
def cellDetailString (cell : GridCell) : String :=
  if cell.has_street = false ∧ cell.has_pedestrian_path = false ∧
      cell.has_building = false then "Empty area"
  else if (detailsParts cell).isEmpty then "Location"
  else joinSep " - " (detailsParts cell)

/-- Accessible description of a viewport cell
(StreetNetwork.get_cell_details). -/
def get_cell_details (n : StreetNetwork) (grid_x grid_y : ℤ) : String :=
  (get_cell_info n grid_x grid_y).elim "Invalid position" cellDetailString

/-! ## Map summary (rendering/ascii_renderer.py `GridFormatter.get_map_summary`) -/

/-- Lexicographic codepoint comparison of character lists (the order
Python uses on strings). -/
def charListLe : List Char → List Char → Bool
  | [], _ => true
  | _ :: _, [] => false
  | a :: as, b :: bs =>
    if a.toNat < b.toNat then true
    else if b.toNat < a.toNat then false
    else charListLe as bs

/-- Lexicographic codepoint comparison of strings. -/
def strLe (a b : String) : Bool := charListLe a.data b.data

/-- Insert a string into an already sorted list (used to model Python's
`sorted` on a set of names). -/
def insertSorted (s : String) : List String → List String
  | [] => [s]
  | t :: rest => if strLe s t then s :: t :: rest else t :: insertSorted s rest

/-- Lexicographically sort a list of strings. -/
def sortStrings (l : List String) : List String := l.foldr insertSorted []

/-- The summary parts accumulated by `GridFormatter.get_map_summary`:
street count with up to five distinct named streets (or the
"Including N named streets" fallback), path count, building count, and
the grid dimensions when both are nonzero. -/
def summaryParts (n : StreetNetwork) : List String :=
  (if n.streets.isEmpty then []
   else if ((n.streets.map Street.name).filter
       (fun nm => nm ≠ "" ∧ nm ≠ "Unnamed Street")).dedup.isEmpty then
     [toString n.streets.length ++ " street(s)"]
   else if ((n.streets.map Street.name).filter
       (fun nm => nm ≠ "" ∧ nm ≠ "Unnamed Street")).dedup.length ≤ 5 then
     [toString n.streets.length ++ " street(s)"] ++
       ["Streets: " ++ joinSep ", " (sortStrings
         ((n.streets.map Street.name).filter
           (fun nm => nm ≠ "" ∧ nm ≠ "Unnamed Street")).dedup)]
   else
     [toString n.streets.length ++ " street(s)"] ++
       ["Including " ++ toString ((n.streets.map Street.name).filter
           (fun nm => nm ≠ "" ∧ nm ≠ "Unnamed Street")).dedup.length ++
         " named streets"]) ++
  (if n.pedestrian_paths.isEmpty then []
   else [toString n.pedestrian_paths.length ++ " pedestrian path(s)"]) ++
  (if n.buildings.isEmpty then []
   else [toString n.buildings.length ++ " building(s)"]) ++
  (if n.grid_width ≠ 0 ∧ n.grid_height ≠ 0 then
    ["Map size: " ++ toString n.grid_width ++ " by " ++
      toString n.grid_height ++ " cells"]
   else [])

/-- One-sentence accessible map summary
(GridFormatter.get_map_summary): the joined summary parts, or a fixed
sentence when no part was accumulated. -/
def get_map_summary (n : StreetNetwork) : String :=
  if (summaryParts n).isEmpty then "No map data found in this area."
  else "Map contains " ++ joinSep ", " (summaryParts n) ++ "."

/-! ## Map cache (mapping/map_cache.py) -/

/-- Cache of the last fetched feature data with its center and radius. -/
structure MapDataCache where
  streets : List Street := []
  intersections : List Intersection := []
  pedestrian_paths : List PedestrianPath := []
  buildings : List Building := []
  center_lat : ℝ := 0
  center_lon : ℝ := 0
  fetch_radius : ℤ := 0

/-- Approximate planar distance between the cached center and a new
center, using the flat-Earth metric duplicated inside
`MapDataCache.needs_refetch`. -/
noncomputable def centerDistance (c : MapDataCache) (nlat nlon : ℝ) : ℝ :=
  Real.sqrt (((nlat - c.center_lat) * 111320) ^ 2 +
    ((nlon - c.center_lon) * 111320 * Real.cos (c.center_lat * Real.pi / 180)) ^ 2)

/-- Refetch decision (MapDataCache.needs_refetch): true when no streets
and no buildings are cached; otherwise true when the new center is more
than half the fetch radius away. -/
def needs_refetch (c : MapDataCache) (nlat nlon : ℝ) : Prop :=
  if c.streets.isEmpty && c.buildings.isEmpty then True
  else centerDistance c nlat nlon > (c.fetch_radius : ℝ) * 0.5

/-- Whether the cache holds any data (MapDataCache.has_data). -/
def has_data (c : MapDataCache) : Bool :=
  !c.streets.isEmpty || !c.intersections.isEmpty ||
    !c.pedestrian_paths.isEmpty || !c.buildings.isEmpty

/-! ## Zoom (StreetNetwork.zoom_at_cursor) -/

/-- Modelled from the spec: `StreetNetwork.zoom_at_cursor` and
`get_current_zoom_level` are invoked by the UI layer
(ui/map_display.py) but their definitions are not present under the
source tree, so the zoom state and transition are modelled from the
specification: zooming multiplies the current `cell_size_meters` by
`zoom_factor`, clamped to an implementation-defined minimum/maximum cell
size (modelled as parameters); it fails, returning false with no
mutation, when the result would exceed either bound; on success only the
cell size changes and the grid is re-rasterized around the same center
with width/height fixed for the session.  `ZoomState` carries the state
the claim observes. -/
structure ZoomState where
  cell_size_meters : ℚ
  grid_width : ℕ
  grid_height : ℕ

/-- Modelled from the spec: the `zoom_at_cursor` transition, parametrised
by the implementation-defined cell-size bounds.  Cursor coordinates are
accepted but do not affect the result (zoom is center-preserving). -/
def zoom_at_cursor (min_cell max_cell : ℚ) (s : ZoomState)
    (_grid_x _grid_y : ℤ) (zoom_factor : ℚ) : Bool × ZoomState :=
  let new_size := s.cell_size_meters * zoom_factor
  if new_size < min_cell ∨ new_size > max_cell then (false, s)
  else (true, { s with cell_size_meters := new_size })

/-- The default viewport configuration (40 x 40 cells, 25 m cells). -/
def defaultConfig : ViewportConfig := {}

/-! ## Concrete fixtures used in witnesses and counterexamples -/

/-- A street whose polyline has exactly one vertex, at the map center. -/
def singlePointStreet : Street :=
  { name := "Main St", coordinates := [(0, 0)], street_type := "residential" }

/-- A network holding only the single-vertex street. -/
def netWithPointStreet : StreetNetwork := { streets := [singlePointStreet] }

/-- A network with no features at all. -/
def emptyNetwork : StreetNetwork := {}

/-- An intersection located at the map center. -/
def originIntersection : Intersection := { lat := 0, lon := 0 }

/-- A network holding only the center intersection. -/
def netWithIntersection : StreetNetwork :=
  { intersections := [originIntersection] }

/-- A named street with an empty polyline (the summary only reads names). -/
def namedStreet (nm : String) : Street :=
  { name := nm, coordinates := [], street_type := "residential" }

/-- A network with three distinct named streets. -/
def netThreeStreets : StreetNetwork :=
  { streets := [namedStreet "Oak Ave", namedStreet "Main St", namedStreet "Pine Rd"] }

/-- A network with six distinct named streets (above the listing limit). -/
def netSixStreets : StreetNetwork :=
  { streets := [namedStreet "Ash St", namedStreet "Birch St", namedStreet "Cedar St",
                namedStreet "Dover St", namedStreet "Elm St", namedStreet "Fir St"] }

/-- A cache holding one street, centered at the origin, radius 500 m. -/
def cacheWithStreet : MapDataCache :=
  { streets := [namedStreet "Main St"], fetch_radius := 500 }

/-- A cache holding only an intersection (no streets, no buildings). -/
def cacheWithIntersection : MapDataCache :=
  { intersections := [originIntersection], fetch_radius := 500 }

/-! ## Theorems -/

/-- C2: for every GridCell, `get_priority_character` obeys the strict
precedence intersection > street > pedestrian path > building > empty:
an intersection cell always displays '+', otherwise a street cell
displays '.', otherwise a path cell displays '=', otherwise a building
cell displays '#', and otherwise the cell displays ' '. -/
theorem C2_priority_character (c : GridCell) :
    (c.is_intersection = true → get_priority_character c = '+') ∧
    (c.is_intersection = false → c.has_street = true →
      get_priority_character c = '.') ∧
    (c.is_intersection = false → c.has_street = false →
      c.has_pedestrian_path = true → get_priority_character c = '=') ∧
    (c.is_intersection = false → c.has_street = false →
      c.has_pedestrian_path = false → c.has_building = true →
      get_priority_character c = '#') ∧
    (c.is_intersection = false → c.has_street = false →
      c.has_pedestrian_path = false → c.has_building = false →
      get_priority_character c = ' ') := by
  unfold get_priority_character
  refine ⟨?_, ?_, ?_, ?_, ?_⟩ <;> intros <;> simp_all

/-- Witness for C2: an intersection cell that also carries every other
flag still displays '+'. -/
theorem C2_priority_character_witness :
    get_priority_character
      { is_intersection := true, has_street := true,
        has_pedestrian_path := true, has_building := true } = '+' :=
  (C2_priority_character
    { is_intersection := true, has_street := true,
      has_pedestrian_path := true, has_building := true }).1 rfl

/-- C7: for every center and every point, `meters_to_latlon` inverts
`project_to_meters` exactly (in the real-number model of the float
arithmetic), provided the center's longitude conversion factor is
nonzero. -/
theorem C7_projection_roundtrip (p : LocalProjection) (lat lon : ℝ)
    (h : lon_to_meters p ≠ 0) :
    meters_to_latlon p (project_to_meters p lat lon).1
      (project_to_meters p lat lon).2 = (lat, lon) := by
  unfold meters_to_latlon project_to_meters lat_to_meters
  have h2 : (111320 : ℝ) ≠ 0 := by norm_num
  simp only [Prod.mk.injEq]
  constructor
  · field_simp
  · field_simp

/-- Witness for C7: at the equatorial center (0, 0) the longitude factor
is nonzero and the round trip restores the point (1, 2). -/
theorem C7_projection_roundtrip_witness :
    lon_to_meters ⟨0, 0⟩ ≠ 0 ∧
      meters_to_latlon ⟨0, 0⟩ (project_to_meters ⟨0, 0⟩ 1 2).1
        (project_to_meters ⟨0, 0⟩ 1 2).2 = (1, 2) := by
  have h : lon_to_meters ⟨0, 0⟩ ≠ 0 := by
    unfold lon_to_meters
    norm_num [Real.cos_zero]
  exact ⟨h, C7_projection_roundtrip ⟨0, 0⟩ 1 2 h⟩

/-- C8 counterexample: with the default configuration and meter
coordinate x = -1012.5, the claimed floor formula gives -1 while the
code's Python `int()` truncation gives 0, so `meters_to_extended_grid`
does not return the floor of `x / cell_size + extended_width / 2`. -/
theorem C8_floor_counterexample :
    (meters_to_extended_grid defaultConfig (-(2025 : ℝ) / 2) 0).1 = 0 ∧
      ⌊(-(2025 : ℝ) / 2) / ((defaultConfig.cell_size_meters : ℝ)) +
        (extended_width defaultConfig : ℝ) / 2⌋ = -1 := by
  have harg : (-(2025 : ℝ) / 2) / ((defaultConfig.cell_size_meters : ℝ)) +
      (extended_width defaultConfig : ℝ) / 2 = -(1 / 2) := by
    norm_num [defaultConfig, extended_width]
  constructor
  · show pyInt _ = 0
    unfold pyInt
    rw [harg]
    norm_num
  · rw [harg]
    norm_num

/-- C8 amended: `meters_to_extended_grid` applies Python `int()`
truncation toward zero, which coincides with the claimed floor formula
`grid_x = floor(x / cell_size + extended_width / 2)`,
`grid_y = floor(-y / cell_size + extended_height / 2)` whenever both
operands are nonnegative (the Y axis is inverted so north is up, and no
clamping is applied). -/
theorem C8_extended_grid_floor (cfg : ViewportConfig) (x y : ℝ)
    (hx : 0 ≤ x / (cfg.cell_size_meters : ℝ) + (extended_width cfg : ℝ) / 2)
    (hy : 0 ≤ -y / (cfg.cell_size_meters : ℝ) + (extended_height cfg : ℝ) / 2) :
    meters_to_extended_grid cfg x y =
      (⌊x / (cfg.cell_size_meters : ℝ) + (extended_width cfg : ℝ) / 2⌋,
       ⌊-y / (cfg.cell_size_meters : ℝ) + (extended_height cfg : ℝ) / 2⌋) := by
  unfold meters_to_extended_grid pyInt
  rw [if_pos hx, if_pos hy]

/-- Witness for C8 amended: at the origin with the default configuration
both operands are nonnegative and the conversion yields the floors. -/
theorem C8_extended_grid_floor_witness :
    (0 ≤ (0 : ℝ) / ((defaultConfig.cell_size_meters : ℝ)) +
        (extended_width defaultConfig : ℝ) / 2) ∧
    (0 ≤ -(0 : ℝ) / ((defaultConfig.cell_size_meters : ℝ)) +
        (extended_height defaultConfig : ℝ) / 2) ∧
    meters_to_extended_grid defaultConfig 0 0 =
      (⌊(0 : ℝ) / ((defaultConfig.cell_size_meters : ℝ)) +
          (extended_width defaultConfig : ℝ) / 2⌋,
       ⌊-(0 : ℝ) / ((defaultConfig.cell_size_meters : ℝ)) +
          (extended_height defaultConfig : ℝ) / 2⌋) :=
  ⟨by norm_num [defaultConfig, extended_width],
   by norm_num [defaultConfig, extended_height],
   C8_extended_grid_floor defaultConfig 0 0
     (by norm_num [defaultConfig, extended_width])
     (by norm_num [defaultConfig, extended_height])⟩

/-- Truncation toward zero agrees with the floor on nonnegative reals and
is monotone there. -/
theorem pyInt_add_one_mono {a b : ℝ} (ha : 0 ≤ a) (hab : a ≤ b) :
    pyInt a + 1 ≤ pyInt b + 1 := by
  unfold pyInt
  rw [if_pos ha, if_pos (ha.trans hab)]
  exact add_le_add_right (Int.floor_le_floor hab) 1

/-- C9: the required fetch radius equals
`int(half_diagonal * margin_factor) + 1` (a floor, since the operand is
nonnegative for a nonnegative margin), and it is monotonically
non-decreasing in viewport width, height and cell size; for any margin
factor at least 1 it is at least the radius computed with margin 1. -/
theorem C9_required_radius_monotone :
    (∀ cfg : ViewportConfig, 0 ≤ cfg.margin_factor →
      calculate_required_radius cfg =
        ⌊Real.sqrt ((((cfg.width : ℝ) * (cfg.cell_size_meters : ℝ)) / 2) ^ 2 +
            (((cfg.height : ℝ) * (cfg.cell_size_meters : ℝ)) / 2) ^ 2) *
          (cfg.margin_factor : ℝ)⌋ + 1) ∧
    (∀ w w' h : ℕ, ∀ c m : ℚ, w ≤ w' → 0 ≤ c → 0 ≤ m →
      calculate_required_radius ⟨w, h, c, m⟩ ≤
        calculate_required_radius ⟨w', h, c, m⟩) ∧
    (∀ w h h' : ℕ, ∀ c m : ℚ, h ≤ h' → 0 ≤ c → 0 ≤ m →
      calculate_required_radius ⟨w, h, c, m⟩ ≤
        calculate_required_radius ⟨w, h', c, m⟩) ∧
    (∀ w h : ℕ, ∀ c c' m : ℚ, c ≤ c' → 0 ≤ c → 0 ≤ m →
      calculate_required_radius ⟨w, h, c, m⟩ ≤
        calculate_required_radius ⟨w, h, c', m⟩) ∧
    (∀ w h : ℕ, ∀ c m : ℚ, 1 ≤ m →
      calculate_required_radius ⟨w, h, c, 1⟩ ≤
        calculate_required_radius ⟨w, h, c, m⟩) := by
  have sqrt_arg_nonneg : ∀ u v : ℝ, 0 ≤ (u / 2) ^ 2 + (v / 2) ^ 2 := by
    intro u v
    positivity
  refine ⟨?_, ?_, ?_, ?_, ?_⟩
  · intro cfg hm
    unfold calculate_required_radius pyInt
    rw [if_pos]
    exact mul_nonneg (Real.sqrt_nonneg _) (by exact_mod_cast hm)
  · intro w w' h c m hww hc hm
    unfold calculate_required_radius
    dsimp only
    apply pyInt_add_one_mono
    · exact mul_nonneg (Real.sqrt_nonneg _) (by exact_mod_cast hm)
    · have hc' : (0 : ℝ) ≤ (c : ℝ) := by exact_mod_cast hc
      have hm' : (0 : ℝ) ≤ (m : ℝ) := by exact_mod_cast hm
      have hww' : (w : ℝ) ≤ (w' : ℝ) := by exact_mod_cast hww
      gcongr
  · intro w h h' c m hhh hc hm
    unfold calculate_required_radius
    dsimp only
    apply pyInt_add_one_mono
    · exact mul_nonneg (Real.sqrt_nonneg _) (by exact_mod_cast hm)
    · have hc' : (0 : ℝ) ≤ (c : ℝ) := by exact_mod_cast hc
      have hm' : (0 : ℝ) ≤ (m : ℝ) := by exact_mod_cast hm
      have hhh' : (h : ℝ) ≤ (h' : ℝ) := by exact_mod_cast hhh
      gcongr
  · intro w h c c' m hcc hc hm
    unfold calculate_required_radius
    dsimp only
    apply pyInt_add_one_mono
    · exact mul_nonneg (Real.sqrt_nonneg _) (by exact_mod_cast hm)
    · have hc0 : (0 : ℝ) ≤ (c : ℝ) := by exact_mod_cast hc
      have hm' : (0 : ℝ) ≤ (m : ℝ) := by exact_mod_cast hm
      have hcc' : (c : ℝ) ≤ (c' : ℝ) := by exact_mod_cast hcc
      gcongr
  · intro w h c m hm
    unfold calculate_required_radius
    dsimp only
    apply pyInt_add_one_mono
    · exact mul_nonneg (Real.sqrt_nonneg _) (by norm_num)
    · have hm' : (1 : ℝ) ≤ (m : ℝ) := by exact_mod_cast hm
      push_cast
      nth_rewrite 1 [mul_one]
      nth_rewrite 1 [show Real.sqrt ((((w : ℝ)) * (c : ℝ) / 2) ^ 2 +
          (((h : ℝ)) * (c : ℝ) / 2) ^ 2) =
        Real.sqrt ((((w : ℝ)) * (c : ℝ) / 2) ^ 2 +
          (((h : ℝ)) * (c : ℝ) / 2) ^ 2) * 1 from (mul_one _).symm]
      gcongr

/-- One successful zoom step multiplies the cell size by the factor and
respects both bounds. -/
theorem zoom_success_step (minc maxc : ℚ) (t : ZoomState) (gx gy : ℤ) (f : ℚ)
    (h : (zoom_at_cursor minc maxc t gx gy f).1 = true) :
    (zoom_at_cursor minc maxc t gx gy f).2.cell_size_meters =
        t.cell_size_meters * f ∧
      minc ≤ t.cell_size_meters * f ∧ t.cell_size_meters * f ≤ maxc := by
  unfold zoom_at_cursor at h ⊢
  dsimp only at h ⊢
  split_ifs at h ⊢ with hc
  push_neg at hc
  exact ⟨rfl, hc.1, hc.2⟩

/-- A failing zoom step leaves the state unchanged. -/
theorem zoom_fail_step (minc maxc : ℚ) (t : ZoomState) (gx gy : ℤ) (f : ℚ)
    (h : (zoom_at_cursor minc maxc t gx gy f).1 = false) :
    (zoom_at_cursor minc maxc t gx gy f).2 = t := by
  unfold zoom_at_cursor at h ⊢
  dsimp only at h ⊢
  split_ifs at h ⊢
  rfl

/-- Any zoom step, succeeding or failing, preserves the grid dimensions. -/
theorem zoom_dims_step (minc maxc : ℚ) (t : ZoomState) (gx gy : ℤ) (f : ℚ) :
    (zoom_at_cursor minc maxc t gx gy f).2.grid_width = t.grid_width ∧
      (zoom_at_cursor minc maxc t gx gy f).2.grid_height = t.grid_height := by
  unfold zoom_at_cursor
  dsimp only
  split_ifs <;> exact ⟨rfl, rfl⟩

/-- C1 (modelled from the spec, since `zoom_at_cursor` is only invoked,
not defined, under the source tree): zooming multiplies the current
`cell_size_meters` by the zoom factor clamped to the minimum/maximum
cell size; whenever the result would exceed either bound the call
returns false and leaves the state unchanged; across any sequence of
zoom calls the grid width and height never change, and repeated calls
with factor 0.8 eventually return false at the minimum bound. -/
theorem C1_zoom_at_cursor_behaviour (min_cell max_cell : ℚ) (s : ZoomState) :
    (∀ gx gy : ℤ, ∀ f : ℚ,
      (zoom_at_cursor min_cell max_cell s gx gy f).1 = true →
        (zoom_at_cursor min_cell max_cell s gx gy f).2.cell_size_meters =
            s.cell_size_meters * f ∧
          min_cell ≤ s.cell_size_meters * f ∧
          s.cell_size_meters * f ≤ max_cell) ∧
    (∀ gx gy : ℤ, ∀ f : ℚ,
      (zoom_at_cursor min_cell max_cell s gx gy f).1 = false →
        (zoom_at_cursor min_cell max_cell s gx gy f).2 = s) ∧
    (∀ calls : List (ℤ × ℤ × ℚ),
      (calls.foldl
        (fun t c => (zoom_at_cursor min_cell max_cell t c.1 c.2.1 c.2.2).2)
        s).grid_width = s.grid_width ∧
      (calls.foldl
        (fun t c => (zoom_at_cursor min_cell max_cell t c.1 c.2.1 c.2.2).2)
        s).grid_height = s.grid_height) ∧
    (0 < min_cell → 0 < s.cell_size_meters →
      ∃ n : ℕ,
        (zoom_at_cursor min_cell max_cell
          ((fun t => (zoom_at_cursor min_cell max_cell t 0 0 (4 / 5)).2)^[n] s)
          0 0 (4 / 5)).1 = false) := by
  refine ⟨fun gx gy f h => zoom_success_step _ _ _ _ _ _ h,
    fun gx gy f h => zoom_fail_step _ _ _ _ _ _ h, ?_, ?_⟩
  · intro calls
    induction calls generalizing s with
    | nil => exact ⟨rfl, rfl⟩
    | cons c rest ih =>
      simp only [List.foldl_cons]
      refine ⟨?_, ?_⟩
      · rw [(ih _).1, (zoom_dims_step _ _ _ _ _ _).1]
      · rw [(ih _).2, (zoom_dims_step _ _ _ _ _ _).2]
  · intro hmin hcell
    by_contra hall
    push_neg at hall
    have hall' : ∀ n : ℕ,
        (zoom_at_cursor min_cell max_cell
          ((fun t => (zoom_at_cursor min_cell max_cell t 0 0 (4 / 5)).2)^[n] s)
          0 0 (4 / 5)).1 = true := by
      intro n
      cases hb : (zoom_at_cursor min_cell max_cell
          ((fun t => (zoom_at_cursor min_cell max_cell t 0 0 (4 / 5)).2)^[n] s)
          0 0 (4 / 5)).1 with
      | false => exact absurd hb (hall n)
      | true => rfl
    have key : ∀ n : ℕ,
        ((fun t => (zoom_at_cursor min_cell max_cell t 0 0 (4 / 5)).2)^[n]
          s).cell_size_meters = s.cell_size_meters * (4 / 5) ^ n := by
      intro n
      induction n with
      | zero => simp
      | succ k ih =>
        rw [Function.iterate_succ_apply']
        rw [(zoom_success_step _ _ _ _ _ _ (hall' k)).1, ih]
        ring
    obtain ⟨N, hN⟩ :=
      exists_pow_lt_of_lt_one (div_pos hmin hcell) (by norm_num : (4 : ℚ) / 5 < 1)
    have hlt : s.cell_size_meters * (4 / 5) ^ N < min_cell := by
      rw [lt_div_iff₀ hcell] at hN
      calc s.cell_size_meters * (4 / 5) ^ N
          = (4 / 5 : ℚ) ^ N * s.cell_size_meters := by ring
        _ < min_cell := hN
    have hge := (zoom_success_step _ _ _ _ _ _ (hall' N)).2.1
    rw [key N] at hge
    have hpow : (0 : ℚ) < s.cell_size_meters * (4 / 5) ^ N := by positivity
    have : s.cell_size_meters * (4 / 5) ^ N * (4 / 5) <
        s.cell_size_meters * (4 / 5) ^ N := by
      nth_rewrite 2 [show s.cell_size_meters * (4 / 5) ^ N =
          s.cell_size_meters * (4 / 5) ^ N * 1 from (mul_one _).symm]
      exact mul_lt_mul_of_pos_left (by norm_num) hpow
    exact absurd hge (by linarith)

/-- Witness for C1: with bounds [5, 100] and an initial 25 m cell size,
repeated factor-0.8 zooms eventually fail. -/
theorem C1_zoom_at_cursor_behaviour_witness :
    ∃ n : ℕ,
      (zoom_at_cursor 5 100
        ((fun t => (zoom_at_cursor 5 100 t 0 0 (4 / 5)).2)^[n]
          ⟨25, 40, 40⟩) 0 0 (4 / 5)).1 = false :=
  (C1_zoom_at_cursor_behaviour 5 100 ⟨25, 40, 40⟩).2.2.2
    (by norm_num) (by norm_num)

/-- Mutating one dict entry never adds or removes a key. -/
theorem updateCell_isSome (g : Grid) (q : ℤ × ℤ) (f : GridCell → GridCell)
    (p : ℤ × ℤ) : ((updateCell g q f) p).isSome = (g p).isSome := by
  unfold updateCell
  split_ifs with h
  · subst h
    cases g p <;> rfl
  · rfl

/-- Guarded mutation never adds or removes a key. -/
theorem setIfValid_isSome (cfg : ViewportConfig) (g : Grid) (gx gy : ℤ)
    (f : GridCell → GridCell) (p : ℤ × ℤ) :
    ((setIfValid cfg g gx gy f) p).isSome = (g p).isSome := by
  unfold setIfValid
  split_ifs
  · exact updateCell_isSome g (gx, gy) f p
  · rfl

/-- A fold of key-preserving grid transforms is key-preserving. -/
theorem foldl_isSome {α : Type} (F : Grid → α → Grid)
    (hF : ∀ g a p, (F g a p).isSome = (g p).isSome) :
    ∀ (l : List α) (g : Grid) (p : ℤ × ℤ),
      ((l.foldl F g) p).isSome = (g p).isSome := by
  intro l
  induction l with
  | nil => intro g p; rfl
  | cons a rest ih =>
    intro g p
    rw [List.foldl_cons, ih, hF]

/-- Street rasterization never adds or removes grid keys. -/
theorem rasterizeStreet_isSome (cfg : ViewportConfig) (proj : LocalProjection)
    (g : Grid) (street : Street) (p : ℤ × ℤ) :
    ((rasterizeStreet cfg proj g street) p).isSome = (g p).isSome := by
  unfold rasterizeStreet
  exact foldl_isSome _
    (fun g seg p => foldl_isSome _
      (fun (g : Grid) (pt : ℤ × ℤ) (p : ℤ × ℤ) =>
        setIfValid_isSome cfg g pt.1 pt.2 _ p) _ g p) _ g p

/-- Path rasterization never adds or removes grid keys. -/
theorem rasterizePath_isSome (cfg : ViewportConfig) (proj : LocalProjection)
    (g : Grid) (path : PedestrianPath) (p : ℤ × ℤ) :
    ((rasterizePath cfg proj g path) p).isSome = (g p).isSome := by
  unfold rasterizePath
  exact foldl_isSome _
    (fun g seg p => foldl_isSome _
      (fun (g : Grid) (pt : ℤ × ℤ) (p : ℤ × ℤ) =>
        setIfValid_isSome cfg g pt.1 pt.2 _ p) _ g p) _ g p

/-- Building rasterization never adds or removes grid keys. -/
theorem rasterizeBuilding_isSome (cfg : ViewportConfig) (proj : LocalProjection)
    (g : Grid) (b : Building) (p : ℤ × ℤ) :
    ((rasterizeBuilding cfg proj g b) p).isSome = (g p).isSome :=
  setIfValid_isSome cfg g _ _ _ p

/-- Intersection marking never adds or removes grid keys. -/
theorem markIntersection_isSome (cfg : ViewportConfig) (proj : LocalProjection)
    (g : Grid) (i : Intersection) (p : ℤ × ℤ) :
    ((markIntersection cfg proj g i) p).isSome = (g p).isSome :=
  setIfValid_isSome cfg g _ _ _ p

/-- After `build_grid` the extended grid has exactly the keys of the
freshly initialised dense grid. -/
theorem build_grid_isSome (n : StreetNetwork) (clat clon : ℝ) (p : ℤ × ℤ) :
    ((build_grid n clat clon).extended_grid p).isSome =
      ((initGrid n.viewport_config) p).isSome := by
  unfold build_grid
  dsimp only
  rw [foldl_isSome _ (fun g i p => markIntersection_isSome _ _ g i p)]
  rw [foldl_isSome _ (fun g b p => rasterizeBuilding_isSome _ _ g b p)]
  rw [foldl_isSome _ (fun g pa p => rasterizePath_isSome _ _ g pa p)]
  rw [foldl_isSome _ (fun g st p => rasterizeStreet_isSome _ _ g st p)]

/-- The initial dense grid holds a cell at every valid position. -/
theorem initGrid_isSome (cfg : ViewportConfig) (p : ℤ × ℤ) :
    ((initGrid cfg) p).isSome = true ↔
      is_valid_extended_position cfg p.1 p.2 := by
  unfold initGrid
  split_ifs with h <;> simp [h]

/-- A valid viewport position, translated by the viewport offsets, is
always a valid extended position. -/
theorem viewport_pos_ext_valid (cfg : ViewportConfig) (gx gy : ℤ)
    (hx0 : 0 ≤ gx) (hxw : gx < (cfg.width : ℤ))
    (hy0 : 0 ≤ gy) (hyh : gy < (cfg.height : ℤ)) :
    is_valid_extended_position cfg (gx + (viewport_offset_x cfg : ℤ))
      (gy + (viewport_offset_y cfg : ℤ)) := by
  unfold is_valid_extended_position viewport_offset_x viewport_offset_y
    extended_width extended_height at *
  omega

/-- After a build, `get_cell_info` is total on the visible viewport. -/
theorem get_cell_info_build_total (n : StreetNetwork) (clat clon : ℝ)
    (gx gy : ℤ) (hv : is_valid_grid_pos (build_grid n clat clon) gx gy) :
    ∃ c, get_cell_info (build_grid n clat clon) gx gy = some c := by
  have hcfg : (build_grid n clat clon).viewport_config = n.viewport_config := rfl
  obtain ⟨hx0, hxw, hy0, hyh⟩ := hv
  have hext := viewport_pos_ext_valid n.viewport_config gx gy hx0 hxw hy0 hyh
  have hsome :
      (((build_grid n clat clon).extended_grid
        (gx + (viewport_offset_x n.viewport_config : ℤ),
         gy + (viewport_offset_y n.viewport_config : ℤ))).isSome) = true := by
    rw [build_grid_isSome]
    exact (initGrid_isSome n.viewport_config _).mpr hext
  obtain ⟨c, hc⟩ := Option.isSome_iff_exists.mp hsome
  refine ⟨c, ?_⟩
  unfold get_cell_info
  rw [if_pos ⟨hx0, hxw, hy0, hyh⟩, hcfg, if_pos hext]
  exact hc

/-- C10: after `build_grid` completes, `get_cell_info` returns a cell
(never the `none` of the unreachable trailing branch) for every
coordinate inside the visible viewport: the viewport coordinate
translated by the fixed offsets always lands inside the extended bounds,
and the dense extended grid has an entry there. -/
theorem C10_get_cell_info_never_none (n : StreetNetwork) (clat clon : ℝ)
    (gx gy : ℤ) (hx0 : 0 ≤ gx)
    (hxw : gx < ((build_grid n clat clon).grid_width : ℤ))
    (hy0 : 0 ≤ gy)
    (hyh : gy < ((build_grid n clat clon).grid_height : ℤ)) :
    ∃ c, get_cell_info (build_grid n clat clon) gx gy = some c :=
  get_cell_info_build_total n clat clon gx gy ⟨hx0, hxw, hy0, hyh⟩

/-- Witness for C10: the empty network built at the origin yields a cell
at viewport coordinate (0, 0). -/
theorem C10_get_cell_info_never_none_witness :
    ∃ c, get_cell_info (build_grid emptyNetwork 0 0) 0 0 = some c :=
  C10_get_cell_info_never_none emptyNetwork 0 0 0 0 (by norm_num)
    (by norm_num [StreetNetwork.grid_width, build_grid, emptyNetwork])
    (by norm_num)
    (by norm_num [StreetNetwork.grid_height, build_grid, emptyNetwork])

/-- C5 counterexample: a street whose polyline is the single vertex
(0, 0), which projects to the in-bounds extended cell (40, 40), sets the
street flag of no cell at all: after `build_grid` that cell is still
empty and the whole extended grid equals the grid built with no streets,
so the claimed "exactly one cell" is false. -/
theorem C5_single_vertex_counterexample :
    meters_to_extended_grid defaultConfig
        (project_to_meters ⟨0, 0⟩ 0 0).1 (project_to_meters ⟨0, 0⟩ 0 0).2 =
      (40, 40) ∧
    is_valid_extended_position defaultConfig 40 40 ∧
    (build_grid netWithPointStreet 0 0).extended_grid (40, 40) = some {} ∧
    (build_grid netWithPointStreet 0 0).extended_grid =
      (build_grid emptyNetwork 0 0).extended_grid := by
  have hproj : project_to_meters ⟨0, 0⟩ 0 0 = (0, 0) := by
    unfold project_to_meters
    simp
  refine ⟨?_, by decide, by decide, rfl⟩
  rw [hproj]
  unfold meters_to_extended_grid pyInt
  rw [Prod.mk.injEq]
  constructor <;> norm_num [defaultConfig, extended_width, extended_height]

/-- C5 amended: rasterizing a street whose polyline consists of exactly
one vertex sets the street flag of no extended-grid cell: the polyline
has no consecutive vertex pair, so the rasterization pass leaves the
grid unchanged, and after `build_grid` the extended grid is identical to
the one built with the street removed. -/
theorem C5_single_vertex_street_sets_nothing :
    (∀ (cfg : ViewportConfig) (proj : LocalProjection) (g : Grid)
      (nm ty : String) (p : ℝ × ℝ),
        rasterizeStreet cfg proj g ⟨nm, [p], ty⟩ = g) ∧
    (∀ (n : StreetNetwork) (clat clon : ℝ) (nm ty : String) (p : ℝ × ℝ),
      (build_grid { n with streets := [⟨nm, [p], ty⟩] } clat clon).extended_grid =
        (build_grid { n with streets := [] } clat clon).extended_grid) :=
  ⟨fun _ _ _ _ _ _ => rfl, fun _ _ _ _ _ _ => rfl⟩

/-- Two strings differ when an append's left part already fixes three
characters that differ from the other string. -/
theorem string_append_ne (a t b : String) (hl : 3 ≤ a.data.length)
    (h : a.data.take 3 ≠ b.data.take 3) : a ++ t ≠ b := by
  intro he
  apply h
  have hd := congrArg String.data he
  rw [String.data_append] at hd
  rw [← hd, List.take_append_of_le_length hl]

/-- The first three characters of a nonempty join are those of its first
part. -/
theorem joinSep_take3 (sep p : String) (rest : List String)
    (hp : 3 ≤ p.data.length) :
    (joinSep sep (p :: rest)).data.take 3 = p.data.take 3 := by
  cases rest with
  | nil => rfl
  | cons q qs =>
    show ((p ++ sep ++ joinSep sep (q :: qs))).data.take 3 = _
    rw [String.data_append, String.data_append, List.append_assoc,
      List.take_append_of_le_length hp]

/-- An append of a known prefix is at least as long as the prefix and
keeps its first three characters. -/
theorem prefix_take3 (a t : String) (hl : 3 ≤ a.data.length) :
    3 ≤ (a ++ t).data.length ∧ (a ++ t).data.take 3 = a.data.take 3 := by
  constructor
  · rw [String.data_append, List.length_append]
    omega
  · rw [String.data_append, List.take_append_of_le_length hl]

/-- Every detail part is at least three characters long and starts with
one of the four feature prefixes. -/
theorem detailsParts_mem_take3 (cell : GridCell) (s : String)
    (hs : s ∈ detailsParts cell) :
    3 ≤ s.data.length ∧
      (s.data.take 3 = ['I', 'n', 't'] ∨ s.data.take 3 = ['S', 't', 'r'] ∨
       s.data.take 3 = ['P', 'e', 'd'] ∨ s.data.take 3 = ['B', 'u', 'i']) := by
  unfold detailsParts at hs
  rw [List.mem_append, List.mem_append, List.mem_append] at hs
  rcases hs with ((hA | hB) | hC) | hD
  · unfold intersectionPart at hA
    split_ifs at hA
    · rw [List.mem_singleton] at hA
      subst hA
      exact ⟨by decide, Or.inl (by decide)⟩
    · exact absurd hA (List.not_mem_nil s)
  · unfold streetPart at hB
    split_ifs at hB
    · exact absurd hB (List.not_mem_nil s)
    · rw [List.mem_singleton] at hB
      subst hB
      have h := prefix_take3 "Street: " (cell.street_names.headD "") (by decide)
      exact ⟨h.1, Or.inr (Or.inl (h.2.trans (by decide)))⟩
    · rw [List.mem_singleton] at hB
      subst hB
      have h := prefix_take3 "Streets: " (joinSep ", " cell.street_names) (by decide)
      exact ⟨h.1, Or.inr (Or.inl (h.2.trans (by decide)))⟩
  · unfold pathPart at hC
    split_ifs at hC
    · exact absurd hC (List.not_mem_nil s)
    · rw [List.mem_singleton] at hC
      subst hC
      exact ⟨by decide, Or.inr (Or.inr (Or.inl (by decide)))⟩
    · rw [List.mem_singleton] at hC
      subst hC
      have h := prefix_take3 "Pedestrian path: "
        ((cell.pedestrian_path_names.filter
          (fun nm => nm ≠ "Unnamed Path")).headD "") (by decide)
      exact ⟨h.1, Or.inr (Or.inr (Or.inl (h.2.trans (by decide))))⟩
    · rw [List.mem_singleton] at hC
      subst hC
      have h := prefix_take3 "Pedestrian paths: "
        (joinSep ", " (cell.pedestrian_path_names.filter
          (fun nm => nm ≠ "Unnamed Path"))) (by decide)
      exact ⟨h.1, Or.inr (Or.inr (Or.inl (h.2.trans (by decide))))⟩
  · unfold buildingParts at hD
    obtain ⟨bi, _, rfl⟩ := List.mem_map.mp hD
    split_ifs
    · have h := prefix_take3 "Building: " bi.2 (by decide)
      exact ⟨h.1, Or.inr (Or.inr (Or.inr (h.2.trans (by decide))))⟩
    · have h := prefix_take3 "Building: " bi.1 (by decide)
      exact ⟨h.1, Or.inr (Or.inr (Or.inr (h.2.trans (by decide))))⟩
    · exact ⟨by decide, Or.inr (Or.inr (Or.inr (by decide)))⟩

/-- The in-range detail string is "Empty area" exactly when none of the
street, path and building flags is set, and it is never the
"Invalid position" sentinel. -/
theorem cellDetailString_props (cell : GridCell) :
    (cellDetailString cell = "Empty area" ↔
      (cell.has_street = false ∧ cell.has_pedestrian_path = false ∧
        cell.has_building = false)) ∧
    cellDetailString cell ≠ "Invalid position" := by
  unfold cellDetailString
  split_ifs with hf hempty
  · exact ⟨iff_of_true rfl hf, by decide⟩
  · exact ⟨iff_of_false (by decide) hf, by decide⟩
  · rcases hp : detailsParts cell with _ | ⟨p, rest⟩
    · rw [hp] at hempty
      exact absurd rfl hempty
    · have hmem : p ∈ detailsParts cell := by
        rw [hp]
        exact List.mem_cons_self p rest
      have hprops := detailsParts_mem_take3 cell p hmem
      constructor
      · refine iff_of_false ?_ hf
        intro heq
        have ht := joinSep_take3 " - " p rest hprops.1
        rw [heq] at ht
        rcases hprops.2 with h | h | h | h <;> rw [h] at ht <;>
          exact absurd ht (by decide)
      · intro heq
        have ht := joinSep_take3 " - " p rest hprops.1
        rw [heq] at ht
        rcases hprops.2 with h | h | h | h <;> rw [h] at ht <;>
          exact absurd ht (by decide)

/-- Projection of the center point itself is the origin of the meter
frame. -/
theorem project_center (clat clon : ℝ) :
    project_to_meters ⟨clat, clon⟩ clat clon = (0, 0) := by
  unfold project_to_meters
  simp

/-- The origin of the meter frame lands at extended cell (40, 40) under
the default configuration. -/
theorem m2eg_default_origin :
    meters_to_extended_grid defaultConfig 0 0 = (40, 40) := by
  unfold meters_to_extended_grid pyInt
  rw [Prod.mk.injEq]
  constructor <;> norm_num [defaultConfig, extended_width, extended_height]

/-- Building the intersection-only network marks exactly the center cell:
the extended grid holds the intersection-flagged cell at (40, 40). -/
theorem built_intersection_grid_cell :
    (build_grid netWithIntersection 0 0).extended_grid (40, 40) =
      some { is_intersection := true } := by
  have hgrid : (build_grid netWithIntersection 0 0).extended_grid =
      markIntersection defaultConfig ⟨0, 0⟩ (initGrid defaultConfig)
        originIntersection := rfl
  have hproj0 : project_to_meters ⟨0, 0⟩ originIntersection.lat
      originIntersection.lon = (0, 0) := by
    unfold originIntersection
    exact project_center 0 0
  rw [hgrid]
  unfold markIntersection
  rw [hproj0]
  simp only [m2eg_default_origin]
  decide

/-- The intersection-only network built at the origin reports the
intersection-flagged cell at viewport coordinate (20, 20). -/
theorem built_intersection_cell_info :
    get_cell_info (build_grid netWithIntersection 0 0) 20 20 =
      some { is_intersection := true } := by
  have hvp : is_valid_grid_pos (build_grid netWithIntersection 0 0) 20 20 := by
    unfold is_valid_grid_pos StreetNetwork.grid_width StreetNetwork.grid_height
    decide
  have hve : is_valid_extended_position
      (build_grid netWithIntersection 0 0).viewport_config
      (20 + (viewport_offset_x (build_grid netWithIntersection 0 0).viewport_config : ℤ))
      (20 + (viewport_offset_y (build_grid netWithIntersection 0 0).viewport_config : ℤ)) := by
    decide
  unfold get_cell_info
  rw [if_pos hvp, if_pos hve]
  exact built_intersection_grid_cell

/-- C4 counterexample: a built network with an intersection-only cell at
viewport coordinate (20, 20) — the cell's `is_intersection` flag is set,
yet `get_cell_details` still returns "Empty area", because the source
only consults the street, path and building flags.  The claim's
"none of its feature flags (including is_intersection)" condition is
therefore false on the code. -/
theorem C4_intersection_only_counterexample :
    get_cell_info (build_grid netWithIntersection 0 0) 20 20 =
      some { is_intersection := true } ∧
    ({ is_intersection := true } : GridCell).is_intersection = true ∧
    get_cell_details (build_grid netWithIntersection 0 0) 20 20 =
      "Empty area" := by
  refine ⟨built_intersection_cell_info, rfl, ?_⟩
  unfold get_cell_details
  rw [built_intersection_cell_info]
  decide

/-- C4 amended: on a built network, `get_cell_details` returns
"Invalid position" exactly when the queried coordinate lies outside the
visible viewport bounds, and returns "Empty area" exactly when the
in-range cell has none of `has_street`, `has_pedestrian_path` and
`has_building` set (`is_intersection` is not consulted by the
emptiness check). -/
theorem C4_sentinel_strings (n0 : StreetNetwork) (clat clon : ℝ)
    (gx gy : ℤ) :
    (get_cell_details (build_grid n0 clat clon) gx gy = "Invalid position" ↔
      ¬ is_valid_grid_pos (build_grid n0 clat clon) gx gy) ∧
    (∀ cell : GridCell,
      get_cell_info (build_grid n0 clat clon) gx gy = some cell →
        (get_cell_details (build_grid n0 clat clon) gx gy = "Empty area" ↔
          (cell.has_street = false ∧ cell.has_pedestrian_path = false ∧
            cell.has_building = false))) := by
  constructor
  · by_cases hv : is_valid_grid_pos (build_grid n0 clat clon) gx gy
    · obtain ⟨c, hc⟩ := get_cell_info_build_total n0 clat clon gx gy hv
      unfold get_cell_details
      rw [hc]
      exact iff_of_false (cellDetailString_props c).2 (not_not_intro hv)
    · have hnone : get_cell_info (build_grid n0 clat clon) gx gy = none := by
        unfold get_cell_info
        rw [if_neg hv]
      unfold get_cell_details
      rw [hnone]
      exact iff_of_true rfl hv
  · intro cell hcell
    unfold get_cell_details
    rw [hcell]
    exact (cellDetailString_props cell).1

/-- Witness for C4 amended: the intersection-only built network at
viewport coordinate (20, 20) satisfies the "Empty area"
characterisation. -/
theorem C4_sentinel_strings_witness :
    get_cell_info (build_grid netWithIntersection 0 0) 20 20 =
      some { is_intersection := true } ∧
    (get_cell_details (build_grid netWithIntersection 0 0) 20 20 =
        "Empty area" ↔
      (({ is_intersection := true } : GridCell).has_street = false ∧
        ({ is_intersection := true } : GridCell).has_pedestrian_path = false ∧
        ({ is_intersection := true } : GridCell).has_building = false)) :=
  ⟨built_intersection_cell_info,
   (C4_sentinel_strings netWithIntersection 0 0 20 20).2
     { is_intersection := true } built_intersection_cell_info⟩

/-- C3 counterexample: a cache holding only an intersection has data
(`has_data` is true) and the new center is at distance 0, well under the
threshold, yet `needs_refetch` still returns true — the code's no-data
guard only inspects streets and buildings, so the claimed
characterisation is false. -/
theorem C3_needs_refetch_counterexample :
    needs_refetch cacheWithIntersection 0 0 ∧
    has_data cacheWithIntersection = true ∧
    centerDistance cacheWithIntersection 0 0 ≤
      (cacheWithIntersection.fetch_radius : ℝ) * 0.5 := by
  refine ⟨?_, by decide, ?_⟩
  · unfold needs_refetch
    rw [if_pos (by decide)]
    trivial
  · unfold centerDistance
    norm_num [cacheWithIntersection]

/-- Moving the center only in latitude by d meters of latitude yields a
flat-Earth distance of exactly d from the street cache. -/
theorem centerDistance_lat_shift (d : ℝ) (hd : 0 ≤ d) :
    centerDistance cacheWithStreet (d / 111320) 0 = d := by
  unfold centerDistance cacheWithStreet
  norm_num
  exact Real.sqrt_sq hd

/-- C3 amended: `needs_refetch` returns true whenever no streets and no
buildings are cached (in particular whenever no data at all is cached),
and otherwise returns true exactly when the flat-Earth distance between
the cached and new centers exceeds `fetch_radius * 0.5`; with
fetch_radius 500 it returns false for a center 100 m away and true for
one 300 m away. -/
theorem C3_needs_refetch_characterisation :
    (∀ (c : MapDataCache) (nlat nlon : ℝ),
      needs_refetch c nlat nlon ↔
        ((c.streets = [] ∧ c.buildings = []) ∨
          centerDistance c nlat nlon > (c.fetch_radius : ℝ) * 0.5)) ∧
    (∀ (c : MapDataCache) (nlat nlon : ℝ),
      has_data c = false → needs_refetch c nlat nlon) ∧
    ¬ needs_refetch cacheWithStreet (100 / 111320) 0 ∧
    needs_refetch cacheWithStreet (300 / 111320) 0 := by
  have hchar : ∀ (c : MapDataCache) (nlat nlon : ℝ),
      needs_refetch c nlat nlon ↔
        ((c.streets = [] ∧ c.buildings = []) ∨
          centerDistance c nlat nlon > (c.fetch_radius : ℝ) * 0.5) := by
    intro c nlat nlon
    unfold needs_refetch
    split_ifs with h
    · rw [Bool.and_eq_true, List.isEmpty_iff, List.isEmpty_iff] at h
      exact iff_of_true trivial (Or.inl h)
    · rw [Bool.and_eq_true] at h
      have h' : ¬(c.streets = [] ∧ c.buildings = []) := by
        intro hc
        exact h ⟨List.isEmpty_iff.mpr hc.1, List.isEmpty_iff.mpr hc.2⟩
      exact ⟨Or.inr, fun hor => hor.resolve_left h'⟩
  refine ⟨hchar, ?_, ?_, ?_⟩
  · intro c nlat nlon hno
    unfold has_data at hno
    simp only [Bool.or_eq_false_iff, Bool.not_eq_false'] at hno
    rw [hchar]
    exact Or.inl ⟨List.isEmpty_iff.mp hno.1.1.1, List.isEmpty_iff.mp hno.2⟩
  · rw [hchar]
    push_neg
    constructor
    · intro hc
      simp [cacheWithStreet, namedStreet] at hc
    · rw [centerDistance_lat_shift 100 (by norm_num)]
      norm_num [cacheWithStreet]
  · rw [hchar]
    refine Or.inr ?_
    rw [centerDistance_lat_shift 300 (by norm_num)]
    norm_num [cacheWithStreet]

/-- The summary part list is empty exactly when the three feature lists
are empty and at least one grid dimension is zero. -/
theorem summaryParts_nil_iff (n : StreetNetwork) :
    summaryParts n = [] ↔
      (n.streets = [] ∧ n.pedestrian_paths = [] ∧ n.buildings = [] ∧
        (n.grid_width = 0 ∨ n.grid_height = 0)) := by
  unfold summaryParts
  constructor
  · intro h
    rw [List.append_eq_nil, List.append_eq_nil, List.append_eq_nil] at h
    obtain ⟨⟨⟨hA, hB⟩, hC⟩, hD⟩ := h
    refine ⟨?_, ?_, ?_, ?_⟩
    · by_cases h1 : n.streets.isEmpty = true
      · exact List.isEmpty_iff.mp h1
      · rw [if_neg h1] at hA
        exfalso
        split_ifs at hA <;> simp at hA
    · by_cases h2 : n.pedestrian_paths.isEmpty = true
      · exact List.isEmpty_iff.mp h2
      · rw [if_neg h2] at hB
        exact absurd hB (by simp)
    · by_cases h3 : n.buildings.isEmpty = true
      · exact List.isEmpty_iff.mp h3
      · rw [if_neg h3] at hC
        exact absurd hC (by simp)
    · by_cases h4 : n.grid_width ≠ 0 ∧ n.grid_height ≠ 0
      · rw [if_pos h4] at hD
        exact absurd hD (by simp)
      · push_neg at h4
        by_cases hw : n.grid_width = 0
        · exact Or.inl hw
        · exact Or.inr (h4 hw)
  · intro hcond
    obtain ⟨h1, h2, h3, h4⟩ := hcond
    rw [h1, h2, h3]
    simp only [List.isEmpty_nil, if_true]
    rcases h4 with h4 | h4 <;> simp [h4]

/-- A summary beginning with the "Map contains " prefix can never be the
fixed no-data sentence. -/
theorem map_contains_ne (t : String) :
    ("Map contains " ++ t) ≠ "No map data found in this area." :=
  string_append_ne "Map contains " t _ (by decide) (by decide)

/-- C6 counterexample: a network with zero streets, paths and buildings
but the default nonzero 40 x 40 grid produces the "Map contains
Map size" sentence, not the claimed fixed no-data string, because the
grid-size part keeps the summary list nonempty. -/
theorem C6_map_summary_counterexample :
    emptyNetwork.streets = [] ∧ emptyNetwork.pedestrian_paths = [] ∧
    emptyNetwork.buildings = [] ∧
    get_map_summary emptyNetwork = "Map contains Map size: 40 by 40 cells." ∧
    get_map_summary emptyNetwork ≠ "No map data found in this area." := by
  exact ⟨rfl, rfl, rfl, by decide, by decide⟩

/-- C6 amended: `get_map_summary` returns the fixed
"No map data found in this area." exactly when the street, path and
building lists are all empty and additionally a grid dimension is zero;
otherwise it returns one "Map contains ..." sentence enumerating the
nonzero counts — listing up to 5 distinct named streets and falling back
to an "Including N named streets" phrase above that threshold — with the
grid dimensions appended, as the two concrete networks illustrate. -/
theorem C6_map_summary (n : StreetNetwork) :
    (get_map_summary n = "No map data found in this area." ↔
      (n.streets = [] ∧ n.pedestrian_paths = [] ∧ n.buildings = [] ∧
        (n.grid_width = 0 ∨ n.grid_height = 0))) ∧
    get_map_summary netThreeStreets =
      "Map contains 3 street(s), Streets: Main St, Oak Ave, Pine Rd, Map size: 40 by 40 cells." ∧
    get_map_summary netSixStreets =
      "Map contains 6 street(s), Including 6 named streets, Map size: 40 by 40 cells." := by
  refine ⟨?_, by rfl, by rfl⟩
  constructor
  · intro heq
    by_contra hcond
    have hne : summaryParts n ≠ [] := fun hnil =>
      hcond ((summaryParts_nil_iff n).mp hnil)
    unfold get_map_summary at heq
    rw [if_neg (fun hemp => hne (List.isEmpty_iff.mp hemp))] at heq
    exact map_contains_ne _ heq
  · intro hcond
    unfold get_map_summary
    rw [if_pos (List.isEmpty_iff.mpr ((summaryParts_nil_iff n).mpr hcond))]

/-- Witness for C3 amended: the fresh empty cache has no data and
`needs_refetch` holds at the origin. -/
theorem C3_needs_refetch_characterisation_witness :
    has_data {} = false ∧ needs_refetch ({} : MapDataCache) 0 0 :=
  ⟨by decide, C3_needs_refetch_characterisation.2.1 {} 0 0 (by decide)⟩

/-- Witness for C9: widening the default viewport from 40 to 41 columns
does not decrease the required radius. -/
theorem C9_required_radius_monotone_witness :
    (0 : ℚ) ≤ 25 ∧ (0 : ℚ) ≤ 6 / 5 ∧
    calculate_required_radius ⟨40, 40, 25, 6 / 5⟩ ≤
      calculate_required_radius ⟨41, 40, 25, 6 / 5⟩ :=
  ⟨by norm_num, by norm_num,
   C9_required_radius_monotone.2.1 40 41 40 25 (6 / 5) (by norm_num)
     (by norm_num) (by norm_num)⟩

end Jeevay
